import Mathlib

/-!
Verification of the PurpleAir data-normalization core
(`server/update_data/purpleair.py`).

Shallow embedding conventions:
* Python floats and JSON numbers are modelled as `ℚ`; the decimal literals
  appearing in the source (0.534, 0.0844, 5.604, the AQI breakpoints) are
  exact rationals.
* Python's builtin `round` (round-half-to-even) is `pyRound`; `int(...)` on
  a number (truncation toward zero) is `pyInt`.
* JSON `null` and a missing value are both `Option.none`; Python falsiness
  of a numeric value (`not x`) is `falsy`.
* Fallible Python code (a `KeyError` from `result["AGE"]`, a `ValueError`
  from `fields.index(name)`) is modelled with `Except PyError`.
* `json.loads` of the outer payloads is out of scope: the parse functions
  receive already-structured data, as the claims do.
-/

set_option autoImplicit false

namespace PurpleAir

/-- Python's `round`: round half to even (banker's rounding). -/
def pyRound (q : ℚ) : ℤ :=
  if q - ⌊q⌋ < 1/2 then ⌊q⌋
  else if 1/2 < q - ⌊q⌋ then ⌊q⌋ + 1
  else if ⌊q⌋ % 2 = 0 then ⌊q⌋ else ⌊q⌋ + 1

/-- Python's `int(...)` on a number: truncation toward zero. -/
def pyInt (q : ℚ) : ℤ :=
  if q < 0 then ⌈q⌉ else ⌊q⌋

/-- Truthiness test for an optional JSON number: `None` and `0` are falsy. -/
def falsy : Option ℚ → Bool
  | none => true
  | some q => q == 0

/-- The linear interpolation of `_aqi(pm, ih, il, bph, bpl)`. -/
def _aqi (pm ih il bph bpl : ℚ) : ℤ :=
  pyRound (((ih - il) / (bph - bpl)) * (pm - bpl) + il)

/-- `_apply_epa_correction(pm, rh)`: the EPA humidity calibration, floored
at 0. -/
def _apply_epa_correction (pm rh : ℚ) : ℚ :=
  max 0 (0.534 * pm - 0.0844 * rh + 5.604)

/-- `aqi_from_pm(pm, rh)`: optional EPA correction followed by the EPA
breakpoint banding, exactly as the chain of strict comparisons in the
source. -/
def aqi_from_pm (pm : ℚ) (rh : Option ℚ) : ℤ :=
  let corrected_pm :=
    match rh with
    | some r => _apply_epa_correction pm r
    | none => pm
  if corrected_pm > 350.5 then _aqi corrected_pm 500 401 500 350.5
  else if corrected_pm > 250.5 then _aqi corrected_pm 400 301 350.4 250.5
  else if corrected_pm > 150.5 then _aqi corrected_pm 300 201 250.4 150.5
  else if corrected_pm > 55.5 then _aqi corrected_pm 200 151 150.4 55.5
  else if corrected_pm > 35.5 then _aqi corrected_pm 150 101 55.4 35.5
  else if corrected_pm > 12.1 then _aqi corrected_pm 100 51 35.4 12.1
  else _aqi corrected_pm 50 0 12 0

/-- The banding stage of `aqi_from_pm` in isolation: maps an already
corrected PM2.5 concentration to an AQI score.  Used to state that
`aqi_from_pm` is the composition of the correction and the banding. -/
def aqiBand (c : ℚ) : ℤ :=
  if c > 350.5 then _aqi c 500 401 500 350.5
  else if c > 250.5 then _aqi c 400 301 350.4 250.5
  else if c > 150.5 then _aqi c 300 201 250.4 150.5
  else if c > 55.5 then _aqi c 200 151 150.4 55.5
  else if c > 35.5 then _aqi c 150 101 55.4 35.5
  else if c > 12.1 then _aqi c 100 51 35.4 12.1
  else _aqi c 50 0 12 0

/-- The `model_pb2.Sensor` protobuf message.  Numeric JSON values (id,
coordinates, timestamp) are `ℚ`; the AQI scores are the integers produced
by `aqi_from_pm`.  A field omitted from the protobuf constructor takes the
proto3 default `0`, which we make explicit at each construction site. -/
structure Sensor where
  id : ℚ
  latitude : ℚ
  longitude : ℚ
  aqi_10m : ℤ
  aqi_30m : ℤ
  aqi_1h : ℤ
  aqi_6h : ℤ
  aqi_24h : ℤ
  last_updated : ℚ
  deriving DecidableEq, Repr

/-- The `model_pb2.Sensors` protobuf message: an ordered collection. -/
structure Sensors where
  sensors : List Sensor
  deriving DecidableEq, Repr

/-- The per-sensor projection performed inside the loop of
`compact_sensor_data`: keep `id`, `latitude`, `longitude`, `aqi_10m`;
every omitted protobuf field is its default `0`. -/
def compactSensor (sensor : Sensor) : Sensor :=
  { id := sensor.id
    latitude := sensor.latitude
    longitude := sensor.longitude
    aqi_10m := sensor.aqi_10m
    aqi_30m := 0
    aqi_1h := 0
    aqi_6h := 0
    aqi_24h := 0
    last_updated := 0 }

/-- `compact_sensor_data(sensors)`: a new `Sensors` with the minimal
per-sensor payload, one output record per input record, in order. -/
def compact_sensor_data (s : Sensors) : Sensors :=
  ⟨s.sensors.map compactSensor⟩

/-- Errors raised by the Python code: `list.index` on a missing name
raises `ValueError` (the spec's MissingFieldError); subscripting a dict
with a missing key raises `KeyError`. -/
inductive PyError where
  | missingField (name : String)
  | keyError (key : String)
  deriving DecidableEq, Repr

/-- `_API_FIELDS`: the ten field names requested from the PurpleAir API. -/
def _API_FIELDS : List String :=
  ["sensor_index", "latitude", "longitude", "humidity", "pm2.5_10minute",
   "pm2.5_30minute", "pm2.5_60minute", "pm2.5_6hour", "pm2.5_24hour",
   "last_seen"]

/-- The `pm_fields` list local to `parse_api`. -/
def pm_fields : List String :=
  ["pm2.5_10minute", "pm2.5_30minute", "pm2.5_60minute", "pm2.5_6hour",
   "pm2.5_24hour"]

/-- Python's `list.index` search: position of the first occurrence. -/
def listIndex (n : String) : List String → Option ℕ
  | [] => none
  | f :: rest => if f = n then some 0 else (listIndex n rest).map (· + 1)

/-- `response["fields"].index(n)` with the `ValueError` made explicit. -/
def fieldIndex (fields : List String) (n : String) : Except PyError ℕ :=
  match listIndex n fields with
  | some i => .ok i
  | none => .error (.missingField n)

/-- The dict comprehension
`{n: response["fields"].index(n) for n in _API_FIELDS}`: evaluated left to
right over the requested names, failing at the first missing one. -/
def field_indexes (fields : List String) : List String → Except PyError (List (String × ℕ))
  | [] => .ok []
  | n :: rest => do
    let i ← fieldIndex fields n
    let m ← field_indexes fields rest
    .ok ((n, i) :: m)

/-- A row of the API response's `data` array: one optional number per
column (`none` is JSON `null`). -/
abbrev Row := List (Option ℚ)

/-- `item[field_indexes[n]]`: look the column index up in the built dict
and read that position of the row.  The dict lookup always succeeds for
the names `parse_api` uses, and a position past the row's end reads as
`null`. -/
def rowGet (item : Row) (fi : List (String × ℕ)) (n : String) : Option ℚ :=
  item.getD ((List.lookup n fi).getD 0) none

/-- The `model_pb2.Sensor(...)` construction inside `parse_api`'s loop,
with the row's raw `humidity` value passed through as `rh` (so `null`
humidity means no EPA correction, while `0` humidity is corrected with
`rh = 0`). -/
def apiSensor (fi : List (String × ℕ)) (item : Row) : Sensor :=
  let humidity := rowGet item fi "humidity"
  { id := (rowGet item fi "sensor_index").getD 0
    latitude := (rowGet item fi "latitude").getD 0
    longitude := (rowGet item fi "longitude").getD 0
    aqi_10m := aqi_from_pm ((rowGet item fi "pm2.5_10minute").getD 0) humidity
    aqi_30m := aqi_from_pm ((rowGet item fi "pm2.5_30minute").getD 0) humidity
    aqi_1h := aqi_from_pm ((rowGet item fi "pm2.5_60minute").getD 0) humidity
    aqi_6h := aqi_from_pm ((rowGet item fi "pm2.5_6hour").getD 0) humidity
    aqi_24h := aqi_from_pm ((rowGet item fi "pm2.5_24hour").getD 0) humidity
    last_updated := (rowGet item fi "last_seen").getD 0 }

/-- The row loop of `parse_api`: skip a row with falsy latitude or
longitude, skip a row with any falsy PM window (the `has_pm_data`
flag-and-break loop), otherwise append one built sensor. -/
def parse_api_rows (fi : List (String × ℕ)) : List Row → List Sensor
  | [] => []
  | item :: rest =>
    if falsy (rowGet item fi "latitude") || falsy (rowGet item fi "longitude") then
      parse_api_rows fi rest
    else if pm_fields.any (fun f => falsy (rowGet item fi f)) then
      parse_api_rows fi rest
    else
      apiSensor fi item :: parse_api_rows fi rest

/-- The row-exclusion predicate of `parse_api`, stated as in the spec:
a row is skipped iff latitude or longitude is falsy or any of the five PM
window values is falsy. -/
def skipRow (fi : List (String × ℕ)) (item : Row) : Bool :=
  falsy (rowGet item fi "latitude") || falsy (rowGet item fi "longitude") ||
    pm_fields.any (fun f => falsy (rowGet item fi f))

/-- The structured form of the API payload: a `fields` array naming the
columns and a `data` array of rows. -/
structure APIResponse where
  fields : List String
  data : List Row

/-- `parse_api(data)`: build the field-index dict (failing the whole call
if a requested name is missing), then run the row loop. -/
def parse_api (resp : APIResponse) : Except PyError Sensors := do
  let fi ← field_indexes resp.fields _API_FIELDS
  .ok ⟨parse_api_rows fi resp.data⟩

/-- The decoded `Stats` sub-document of a legacy result: the five
time-windowed PM2.5 samples and the last-modified timestamp. -/
structure Stats where
  v1 : ℚ
  v2 : ℚ
  v3 : ℚ
  v4 : ℚ
  v5 : ℚ
  lastModified : ℚ
  deriving DecidableEq, Repr

/-- One result object of the legacy JSON feed.  `Option` models key
presence: `none` is an absent key.  Every real result carries an `ID`
(the code reads `result["ID"]` unconditionally), so `ID` is mandatory;
`Stats` is kept in decoded form — a malformed `Stats` string is outside
the claims under verification. -/
structure PAResult where
  ID : ℚ
  ParentID : Option ℚ
  DEVICE_LOCATIONTYPE : Option String
  AGE : Option ℚ
  Lat : Option ℚ
  Lon : Option ℚ
  Stats : Option Stats
  humidity : Option ℚ
  Flag : Option ℚ
  deriving DecidableEq, Repr

/-- Truthiness of `result.get("Flag")`. -/
def flagged (result : PAResult) : Bool :=
  match result.Flag with
  | none => false
  | some q => !(q == 0)

/-- `_valid_result(result)`: inside sensors are invalid; then
`int(result["AGE"]) > 300` is checked — a missing `AGE` key raises
`KeyError` here; finally `Lat`, `Lon` and `Stats` must all be present. -/
def _valid_result (result : PAResult) : Except PyError Bool :=
  if result.DEVICE_LOCATIONTYPE.getD "outside" ≠ "outside" then
    .ok false
  else match result.AGE with
    | none => .error (.keyError "AGE")
    | some age =>
      if pyInt age > 300 then .ok false
      else .ok (result.Lat.isSome && result.Lon.isSome && result.Stats.isSome)

/-- `_parse_result(result)`: build a `Sensor` from a result's own fields.
Only ever called on results `_valid_result` accepted, so `Lat`, `Lon` and
`Stats` are present (the `getD` defaults are never reached there);
humidity is passed through optionally, exactly as in the source. -/
def _parse_result (result : PAResult) : Sensor :=
  let stats := result.Stats.getD ⟨0, 0, 0, 0, 0, 0⟩
  let rh := result.humidity
  { id := (pyInt result.ID : ℚ)
    latitude := result.Lat.getD 0
    longitude := result.Lon.getD 0
    aqi_10m := aqi_from_pm stats.v1 rh
    aqi_30m := aqi_from_pm stats.v2 rh
    aqi_1h := aqi_from_pm stats.v3 rh
    aqi_6h := aqi_from_pm stats.v4 rh
    aqi_24h := aqi_from_pm stats.v5 rh
    last_updated := (pyInt stats.lastModified : ℚ) }

/-- The partition loop of `parse_json`: results with a `ParentID` go into
the channel-B dict keyed by `ParentID` (a later result overwrites an
earlier one with the same key, as in a Python dict); the rest form
channel A in input order.  The dict is an association list whose *first*
match is the most recently inserted binding. -/
def splitChannels : List PAResult → List PAResult × List (ℚ × PAResult)
  | [] => ([], [])
  | r :: rest =>
    let s := splitChannels rest
    match r.ParentID with
    | none => (r :: s.1, s.2)
    | some pid => (s.1, s.2 ++ [(pid, r)])

/-- `_parse_results(channel_a, channel_b)`: the reconciliation loop.  A
raised `KeyError` anywhere aborts the whole traversal, as consuming the
Python generator does.  (The `assert "ParentID" not in result` always
holds for the channel A built by `parse_json`, see
`splitChannels_channel_a_no_parent`.) -/
def _parse_results (channel_a : List PAResult) (channel_b : List (ℚ × PAResult)) :
    Except PyError (List Sensor) :=
  match channel_a with
  | [] => .ok []
  | result :: rest =>
    match _valid_result result with
    | .error e => .error e
    | .ok false => _parse_results rest channel_b
    | .ok true =>
      if flagged result then
        match List.lookup result.ID channel_b with
        | none => _parse_results rest channel_b
        | some result_b =>
          match _valid_result result_b with
          | .error e => .error e
          | .ok false => _parse_results rest channel_b
          | .ok true =>
            if flagged result_b then _parse_results rest channel_b
            else
              match _parse_results rest channel_b with
              | .error e => .error e
              | .ok tail => .ok (_parse_result result_b :: tail)
      else
        match _parse_results rest channel_b with
        | .error e => .error e
        | .ok tail => .ok (_parse_result result :: tail)

/-- `parse_json(data)`: partition into channels, reconcile, and wrap the
sensor list.  The input is the payload's `results` array. -/
def parse_json (results : List PAResult) : Except PyError Sensors :=
  let split := splitChannels results
  match _parse_results split.1 split.2 with
  | .error e => .error e
  | .ok sensors => .ok ⟨sensors⟩

/-! Concrete inputs used by the witnesses of the hypothesized theorems. -/

/-- The field-index dict obtained when the payload lists the fields in the
requested order. -/
def wFi : List (String × ℕ) :=
  [("sensor_index", 0), ("latitude", 1), ("longitude", 2), ("humidity", 3),
   ("pm2.5_10minute", 4), ("pm2.5_30minute", 5), ("pm2.5_60minute", 6),
   ("pm2.5_6hour", 7), ("pm2.5_24hour", 8), ("last_seen", 9)]

/-- An API payload with the fields in requested order and three rows: a
complete one, one with latitude `0`, and one with a `0` PM window. -/
def wApiResp : APIResponse :=
  { fields := _API_FIELDS
    data :=
      [[some 7, some 1, some 2, none, some 10, some 10, some 10, some 10,
        some 10, some 1000],
       [some 8, some 0, some 2, none, some 10, some 10, some 10, some 10,
        some 10, some 1000],
       [some 9, some 1, some 2, none, some 10, some 0, some 10, some 10,
        some 10, some 1000]] }

/-- An API payload whose `fields` array lacks nine of the ten requested
names. -/
def wBadResp : APIResponse :=
  { fields := ["sensor_index"], data := [] }

/-- A valid, flagged channel-A result. -/
def wResultA : PAResult :=
  { ID := 1
    ParentID := none
    DEVICE_LOCATIONTYPE := none
    AGE := some 10
    Lat := some 37
    Lon := some (-122)
    Stats := some ⟨10, 10, 10, 10, 10, 1000⟩
    humidity := none
    Flag := some 1 }

/-- A valid, unflagged channel-B result for `wResultA`. -/
def wResultB : PAResult :=
  { ID := 2
    ParentID := some 1
    DEVICE_LOCATIONTYPE := none
    AGE := some 10
    Lat := some 37
    Lon := some (-122)
    Stats := some ⟨20, 20, 20, 20, 20, 1000⟩
    humidity := none
    Flag := none }

/-- A channel-A result that passes the location-type check but lacks the
`AGE` key. -/
def wResultNoAge : PAResult :=
  { ID := 3
    ParentID := none
    DEVICE_LOCATIONTYPE := none
    AGE := none
    Lat := some 37
    Lon := some (-122)
    Stats := some ⟨10, 10, 10, 10, 10, 1000⟩
    humidity := none
    Flag := none }

end PurpleAir

namespace PurpleAir

/-- Evaluation rule for `pyRound` when the fractional part is below 1/2. -/
lemma pyRound_eq_down (q : ℚ) (n : ℤ) (h1 : (n : ℚ) ≤ q) (h2 : q < n + 1/2) :
    pyRound q = n := by
  have hf : ⌊q⌋ = n := Int.floor_eq_iff.mpr ⟨h1, by linarith⟩
  have hlt : q - ((n : ℤ) : ℚ) < 1/2 := by linarith
  unfold pyRound
  rw [hf, if_pos hlt]

/-- Evaluation rule for `pyRound` when the fractional part is above 1/2. -/
lemma pyRound_eq_up (q : ℚ) (n : ℤ) (h1 : (n : ℚ) + 1/2 < q) (h2 : q < n + 1) :
    pyRound q = n + 1 := by
  have hf : ⌊q⌋ = n := Int.floor_eq_iff.mpr ⟨by linarith, by linarith⟩
  have hgt : 1/2 < q - ((n : ℤ) : ℚ) := by linarith
  have hnlt : ¬ q - ((n : ℤ) : ℚ) < 1/2 := by linarith
  unfold pyRound
  rw [hf, if_neg hnlt, if_pos hgt]

/-- C1: `aqi_from_pm` applies the EPA correction
`corrected = max(0, 0.534*pm - 0.0844*rh + 5.604)` when `rh` is provided,
uses `corrected = pm` unmodified when `rh` is absent, and only then maps
the corrected value to an AQI band (`aqiBand`); the corrected value is
never negative when the correction is applied, thanks to the `max(0, _)`
floor.  The function is total by construction (a total Lean function over
`ℚ × Option ℚ`). -/
theorem aqi_from_pm_epa_correction (pm rh : ℚ) :
    aqi_from_pm pm (some rh) = aqiBand (_apply_epa_correction pm rh) ∧
    _apply_epa_correction pm rh = max 0 (0.534 * pm - 0.0844 * rh + 5.604) ∧
    aqi_from_pm pm none = aqiBand pm ∧
    (0 : ℚ) ≤ _apply_epa_correction pm rh :=
  ⟨rfl, rfl, rfl, le_max_left 0 _⟩

/-- C2 counterexample: at `pm = 100, rh = 200` the EPA-corrected value is
`42.124 > 0`, so nothing is floored and the result (117) differs from
`aqi_from_pm 0 none = 0`; the claim's asserted equality fails. -/
theorem aqi_epa_floor_counterexample :
    (0 : ℚ) < 0.534 * 100 - 0.0844 * 200 + 5.604 ∧
    aqi_from_pm 100 (some 200) = 117 ∧
    aqi_from_pm 0 none = 0 ∧
    aqi_from_pm 100 (some 200) ≠ aqi_from_pm 0 none := by
  have h1 : aqi_from_pm 100 (some 200) = 117 := by
    rw [aqi_from_pm]
    simp only [_apply_epa_correction]
    rw [max_eq_right (by norm_num)]
    norm_num
    exact pyRound_eq_down _ 117 (by norm_num) (by norm_num)
  have h2 : aqi_from_pm 0 none = 0 := by
    rw [aqi_from_pm]
    norm_num
    exact pyRound_eq_down _ 0 (by norm_num) (by norm_num)
  refine ⟨by norm_num, h1, h2, by rw [h1, h2]; decide⟩

/-- C2 amended: at `pm = 20, rh = 200` (an input where the EPA correction
really is negative) the corrected value is floored at 0 before banding,
and the result equals `aqi_from_pm 0 none`. -/
theorem aqi_epa_floor_amended :
    0.534 * (20 : ℚ) - 0.0844 * 200 + 5.604 < 0 ∧
    _apply_epa_correction 20 200 = 0 ∧
    aqi_from_pm 20 (some 200) = aqi_from_pm 0 none := by
  have hc : _apply_epa_correction 20 200 = (0 : ℚ) := by
    unfold _apply_epa_correction
    rw [max_eq_left (by norm_num)]
  refine ⟨by norm_num, hc, ?_⟩
  have e1 : aqi_from_pm 20 (some 200) = aqiBand (_apply_epa_correction 20 200) := rfl
  have e2 : aqi_from_pm 0 none = aqiBand 0 := rfl
  rw [e1, e2, hc]

/-- C3 counterexample: at the exact breakpoint `12.1` the strict `>`
comparison fails, so `aqi_from_pm` computes the AQI with the band *below*
(coefficients 50/0/12/0, giving 50), not with the band whose lower bound is
`12.1` (coefficients 100/51/35.4/12.1, which would give 51). -/
theorem aqi_breakpoint_counterexample :
    aqi_from_pm 12.1 none = 50 ∧
    _aqi 12.1 100 51 35.4 12.1 = 51 ∧
    aqi_from_pm 12.1 none ≠ _aqi 12.1 100 51 35.4 12.1 := by
  have h1 : aqi_from_pm 12.1 none = 50 := by
    rw [aqi_from_pm]
    norm_num
    exact pyRound_eq_down _ 50 (by norm_num) (by norm_num)
  have h2 : _aqi 12.1 100 51 35.4 12.1 = 51 := by
    unfold _aqi
    exact pyRound_eq_down _ 51 (by norm_num) (by norm_num)
  exact ⟨h1, h2, by rw [h1, h2]; decide⟩

/-- C3 amended: a corrected PM value exactly equal to a breakpoint lower
bound (12.1, 35.5, 55.5, 150.5, 250.5, 350.5) selects the band *below*
(the strict greater-than comparison fails at equality), so the AQI is
computed with the coefficients of the band below, not the band whose lower
bound equals that value. -/
theorem aqi_breakpoint_lower_band :
    aqi_from_pm 12.1 none = _aqi 12.1 50 0 12 0 ∧
    aqi_from_pm 35.5 none = _aqi 35.5 100 51 35.4 12.1 ∧
    aqi_from_pm 55.5 none = _aqi 55.5 150 101 55.4 35.5 ∧
    aqi_from_pm 150.5 none = _aqi 150.5 200 151 150.4 55.5 ∧
    aqi_from_pm 250.5 none = _aqi 250.5 300 201 250.4 150.5 ∧
    aqi_from_pm 350.5 none = _aqi 350.5 400 301 350.4 250.5 := by
  refine ⟨?_, ?_, ?_, ?_, ?_, ?_⟩
  · have hA : aqi_from_pm 12.1 none = 50 := by
      rw [aqi_from_pm]; norm_num
      exact pyRound_eq_down _ 50 (by norm_num) (by norm_num)
    have hB : _aqi 12.1 50 0 12 0 = 50 := by
      unfold _aqi
      exact pyRound_eq_down _ 50 (by norm_num) (by norm_num)
    rw [hA, hB]
  · have hA : aqi_from_pm 35.5 none = 100 := by
      rw [aqi_from_pm]; norm_num
      exact pyRound_eq_down _ 100 (by norm_num) (by norm_num)
    have hB : _aqi 35.5 100 51 35.4 12.1 = 100 := by
      unfold _aqi
      exact pyRound_eq_down _ 100 (by norm_num) (by norm_num)
    rw [hA, hB]
  · have hA : aqi_from_pm 55.5 none = 150 := by
      rw [aqi_from_pm]; norm_num
      exact pyRound_eq_down _ 150 (by norm_num) (by norm_num)
    have hB : _aqi 55.5 150 101 55.4 35.5 = 150 := by
      unfold _aqi
      exact pyRound_eq_down _ 150 (by norm_num) (by norm_num)
    rw [hA, hB]
  · have hA : aqi_from_pm 150.5 none = 200 := by
      rw [aqi_from_pm]; norm_num
      exact pyRound_eq_down _ 200 (by norm_num) (by norm_num)
    have hB : _aqi 150.5 200 151 150.4 55.5 = 200 := by
      unfold _aqi
      exact pyRound_eq_down _ 200 (by norm_num) (by norm_num)
    rw [hA, hB]
  · have hA : aqi_from_pm 250.5 none = 300 := by
      rw [aqi_from_pm]; norm_num
      exact pyRound_eq_down _ 300 (by norm_num) (by norm_num)
    have hB : _aqi 250.5 300 201 250.4 150.5 = 300 := by
      unfold _aqi
      exact pyRound_eq_down _ 300 (by norm_num) (by norm_num)
    rw [hA, hB]
  · have hA : aqi_from_pm 350.5 none = 400 := by
      rw [aqi_from_pm]; norm_num
      exact pyRound_eq_down _ 400 (by norm_num) (by norm_num)
    have hB : _aqi 350.5 400 301 350.4 250.5 = 400 := by
      unfold _aqi
      exact pyRound_eq_down _ 400 (by norm_num) (by norm_num)
    rw [hA, hB]

/-- C8: compaction preserves collection length and order, keeps `id`,
`latitude`, `longitude` and `aqi_10m` of each record, and zeroes
`aqi_30m`, `aqi_1h`, `aqi_6h`, `aqi_24h` and `last_updated`.  Stated via
positional access: position `i` of the output is exactly the projection of
position `i` of the input (and is `none` for `i` past the length on both
sides). -/
theorem compact_sensor_data_fields (c : Sensors) :
    (compact_sensor_data c).sensors.length = c.sensors.length ∧
    ∀ i : ℕ, (compact_sensor_data c).sensors[i]? =
      (c.sensors[i]?).map (fun s =>
        { id := s.id
          latitude := s.latitude
          longitude := s.longitude
          aqi_10m := s.aqi_10m
          aqi_30m := 0
          aqi_1h := 0
          aqi_6h := 0
          aqi_24h := 0
          last_updated := 0 }) := by
  constructor
  · simp [compact_sensor_data]
  · intro i
    show (c.sensors.map compactSensor)[i]? = _
    rw [List.getElem?_map]
    rfl

/-- C9: compaction is idempotent: compacting an already compacted
collection changes nothing. -/
theorem compact_sensor_data_idempotent (c : Sensors) :
    compact_sensor_data (compact_sensor_data c) = compact_sensor_data c := by
  cases c with
  | mk sensors =>
    simp only [compact_sensor_data, List.map_map]
    congr 1

/-- `list.index(n)` finds nothing exactly when `n` is not in the list. -/
lemma listIndex_eq_none_iff (n : String) (l : List String) :
    listIndex n l = none ↔ n ∉ l := by
  induction l with
  | nil => simp [listIndex]
  | cons f rest ih =>
    by_cases hf : f = n
    · subst hf
      simp [listIndex]
    · simp [listIndex, hf, ih, List.mem_cons, Ne.symm hf]

/-- If any requested name is missing from the payload's field list, the
dict comprehension raises at its first missing name. -/
lemma field_indexes_error (fields names : List String)
    (h : ∃ n ∈ names, n ∉ fields) :
    ∃ n ∈ names, n ∉ fields ∧
      field_indexes fields names = .error (.missingField n) := by
  induction names with
  | nil =>
    obtain ⟨n, hn, _⟩ := h
    exact absurd hn (List.not_mem_nil n)
  | cons m rest ih =>
    by_cases hm : m ∈ fields
    · obtain ⟨n, hn, hnf⟩ := h
      have hn2 : n ∈ rest := by
        rcases List.mem_cons.mp hn with h1 | h1
        · subst h1; exact absurd hm hnf
        · exact h1
      obtain ⟨n3, hn3, hnf3, herr3⟩ := ih ⟨n, hn2, hnf⟩
      refine ⟨n3, List.mem_cons_of_mem _ hn3, hnf3, ?_⟩
      obtain ⟨i, hi⟩ : ∃ i, listIndex m fields = some i :=
        Option.ne_none_iff_exists'.mp
          (fun hnone => ((listIndex_eq_none_iff m fields).mp hnone) hm)
      have hfi : fieldIndex fields m = .ok i := by
        unfold fieldIndex
        rw [hi]
      unfold field_indexes
      rw [hfi, herr3]
      rfl
    · refine ⟨m, List.mem_cons_self m rest, hm, ?_⟩
      have hnone : listIndex m fields = none :=
        (listIndex_eq_none_iff m fields).mpr hm
      have hfi : fieldIndex fields m = .error (.missingField m) := by
        unfold fieldIndex
        rw [hnone]
      unfold field_indexes
      rw [hfi]
      rfl

/-- C4: `parse_api` fails the whole call with the missing-field error when
any of the ten expected field names is absent from the payload's `fields`
array, and no (partial) `Sensors` value is returned. -/
theorem parse_api_missing_field (resp : APIResponse)
    (h : ∃ n ∈ _API_FIELDS, n ∉ resp.fields) :
    ∃ n ∈ _API_FIELDS, n ∉ resp.fields ∧
      parse_api resp = .error (PyError.missingField n) ∧
      ∀ s : Sensors, parse_api resp ≠ .ok s := by
  obtain ⟨n, hn, hnf, herr⟩ := field_indexes_error resp.fields _API_FIELDS h
  have hp : parse_api resp = .error (.missingField n) := by
    unfold parse_api
    rw [herr]
    rfl
  exact ⟨n, hn, hnf, hp, fun s hs => by rw [hp] at hs; cases hs⟩

/-- Witness for C4: a payload listing only `sensor_index` makes
`parse_api` fail with a missing-field error. -/
theorem parse_api_missing_field_witness :
    (∃ n ∈ _API_FIELDS, n ∉ wBadResp.fields) ∧
    (∃ n ∈ _API_FIELDS, n ∉ wBadResp.fields ∧
      parse_api wBadResp = .error (PyError.missingField n) ∧
      ∀ s : Sensors, parse_api wBadResp ≠ .ok s) :=
  ⟨⟨"latitude", by decide, by decide⟩,
    parse_api_missing_field wBadResp ⟨"latitude", by decide, by decide⟩⟩

/-- The row loop of `parse_api` is the order-preserving `filterMap` of the
spec's per-row rule: drop exactly the rows `skipRow` flags, and build one
sensor from each remaining row. -/
lemma parse_api_rows_eq_filterMap (fi : List (String × ℕ)) (l : List Row) :
    parse_api_rows fi l = l.filterMap (fun item =>
      if skipRow fi item then none else some (apiSensor fi item)) := by
  induction l with
  | nil => rfl
  | cons item rest ih =>
    cases h1 : (falsy (rowGet item fi "latitude") || falsy (rowGet item fi "longitude")) with
    | true =>
      have hs : skipRow fi item = true := by simp [skipRow, h1]
      simp [parse_api_rows, List.filterMap_cons, h1, hs, ih]
    | false =>
      cases h2 : pm_fields.any (fun f => falsy (rowGet item fi f)) with
      | true =>
        have hs : skipRow fi item = true := by simp [skipRow, h2]
        simp [parse_api_rows, List.filterMap_cons, h1, h2, hs, ih]
      | false =>
        have hs : skipRow fi item = false := by simp [skipRow, h1, h2]
        simp [parse_api_rows, List.filterMap_cons, h1, h2, hs, ih]

/-- C5: when the field dict builds, `parse_api` returns exactly the rows
not excluded by the falsiness rule (latitude, longitude, or any of the
five PM windows falsy), one sensor per remaining row, in input row
order. -/
theorem parse_api_row_filtering (resp : APIResponse) (fi : List (String × ℕ))
    (h : field_indexes resp.fields _API_FIELDS = .ok fi) :
    parse_api resp = .ok ⟨resp.data.filterMap (fun item =>
      if skipRow fi item then none else some (apiSensor fi item))⟩ := by
  unfold parse_api
  rw [h]
  show (Except.ok (Sensors.mk (parse_api_rows fi resp.data)) : Except PyError Sensors) = _
  rw [parse_api_rows_eq_filterMap]

/-- Witness for C5: the three-row payload `wApiResp` keeps only its first
row (the second has latitude 0, the third a 0 PM window). -/
theorem parse_api_row_filtering_witness :
    field_indexes wApiResp.fields _API_FIELDS = .ok wFi ∧
    parse_api wApiResp = .ok ⟨wApiResp.data.filterMap (fun item =>
      if skipRow wFi item then none else some (apiSensor wFi item))⟩ := by
  have h : field_indexes wApiResp.fields _API_FIELDS = .ok wFi := by rfl
  exact ⟨h, parse_api_row_filtering wApiResp wFi h⟩

/-- Channel A as built by `parse_json` never contains a result with a
`ParentID`, so the `assert` in `_parse_results` always holds there. -/
lemma splitChannels_channel_a_no_parent (l : List PAResult) :
    ∀ r ∈ (splitChannels l).1, r.ParentID = none := by
  induction l with
  | nil => simp [splitChannels]
  | cons r rest ih =>
    intro s hs
    cases hp : r.ParentID with
    | none =>
      simp only [splitChannels, hp] at hs
      rcases List.mem_cons.mp hs with h1 | h1
      · subst h1; exact hp
      · exact ih s h1
    | some pid =>
      simp only [splitChannels, hp] at hs
      exact ih s hs

/-- C6: a valid, flagged channel-A result whose channel-B partner (looked
up by the A result's `ID`) exists, is valid and is unflagged contributes
exactly one output record, parsed from the channel-B result's own fields
(`ID`, `Lat`, `Lon`, `Stats`), not from channel-A's. -/
theorem parse_results_flagged_fallback (r : PAResult) (rest : List PAResult)
    (cb : List (ℚ × PAResult)) (rb : PAResult)
    (hv : _valid_result r = .ok true) (hf : flagged r = true)
    (hlook : List.lookup r.ID cb = some rb)
    (hvb : _valid_result rb = .ok true) (hfb : flagged rb = false) :
    _parse_results (r :: rest) cb =
      Except.map (fun tail => _parse_result rb :: tail) (_parse_results rest cb) ∧
    (_parse_result rb).id = (pyInt rb.ID : ℚ) ∧
    (_parse_result rb).latitude = rb.Lat.getD 0 ∧
    (_parse_result rb).longitude = rb.Lon.getD 0 ∧
    (_parse_result rb).aqi_10m =
      aqi_from_pm (rb.Stats.getD ⟨0, 0, 0, 0, 0, 0⟩).v1 rb.humidity ∧
    (_parse_result rb).last_updated =
      (pyInt (rb.Stats.getD ⟨0, 0, 0, 0, 0, 0⟩).lastModified : ℚ) := by
  refine ⟨?_, rfl, rfl, rfl, rfl, rfl⟩
  cases hres : _parse_results rest cb with
  | error e => simp [_parse_results, hv, hf, hlook, hvb, hfb, hres, Except.map]
  | ok tail => simp [_parse_results, hv, hf, hlook, hvb, hfb, hres, Except.map]

/-- Witness for C6: `wResultA` is valid and flagged, `wResultB` is its
valid unflagged channel-B partner, and the reconciler emits exactly the
record parsed from `wResultB`. -/
theorem parse_results_flagged_fallback_witness :
    _valid_result wResultA = .ok true ∧ flagged wResultA = true ∧
    List.lookup wResultA.ID [((1 : ℚ), wResultB)] = some wResultB ∧
    _valid_result wResultB = .ok true ∧ flagged wResultB = false ∧
    (_parse_results [wResultA] [((1 : ℚ), wResultB)] =
      Except.map (fun tail => _parse_result wResultB :: tail)
        (_parse_results [] [((1 : ℚ), wResultB)]) ∧
    (_parse_result wResultB).id = (pyInt wResultB.ID : ℚ) ∧
    (_parse_result wResultB).latitude = wResultB.Lat.getD 0 ∧
    (_parse_result wResultB).longitude = wResultB.Lon.getD 0 ∧
    (_parse_result wResultB).aqi_10m =
      aqi_from_pm (wResultB.Stats.getD ⟨0, 0, 0, 0, 0, 0⟩).v1 wResultB.humidity ∧
    (_parse_result wResultB).last_updated =
      (pyInt (wResultB.Stats.getD ⟨0, 0, 0, 0, 0, 0⟩).lastModified : ℚ)) := by
  have h1 : _valid_result wResultA = .ok true := by rfl
  have h2 : flagged wResultA = true := by rfl
  have h3 : List.lookup wResultA.ID [((1 : ℚ), wResultB)] = some wResultB := by rfl
  have h4 : _valid_result wResultB = .ok true := by rfl
  have h5 : flagged wResultB = false := by rfl
  exact ⟨h1, h2, h3, h4, h5,
    parse_results_flagged_fallback wResultA [] [((1 : ℚ), wResultB)] wResultB h1 h2 h3 h4 h5⟩

/-- C7: a valid, flagged channel-A result with no channel-B partner — or
one whose partner is invalid or itself flagged — contributes no output
record, and the traversal continues without failing. -/
theorem parse_results_flagged_dropped (r : PAResult) (rest : List PAResult)
    (cb : List (ℚ × PAResult))
    (hv : _valid_result r = .ok true) (hf : flagged r = true)
    (hb : List.lookup r.ID cb = none ∨
      ∃ rb, List.lookup r.ID cb = some rb ∧
        (_valid_result rb = .ok false ∨
          (_valid_result rb = .ok true ∧ flagged rb = true))) :
    _parse_results (r :: rest) cb = _parse_results rest cb := by
  rcases hb with hnone | ⟨rb, hlook, hcase⟩
  · simp [_parse_results, hv, hf, hnone]
  · rcases hcase with hinv | ⟨hvb, hfb⟩
    · simp [_parse_results, hv, hf, hlook, hinv]
    · simp [_parse_results, hv, hf, hlook, hvb, hfb]

/-- Witness for C7: `wResultA` is valid and flagged and the channel-B dict
is empty, so the sensor is silently dropped. -/
theorem parse_results_flagged_dropped_witness :
    _valid_result wResultA = .ok true ∧ flagged wResultA = true ∧
    List.lookup wResultA.ID ([] : List (ℚ × PAResult)) = none ∧
    _parse_results [wResultA] [] = _parse_results [] [] := by
  have h1 : _valid_result wResultA = .ok true := by rfl
  have h2 : flagged wResultA = true := by rfl
  have h3 : List.lookup wResultA.ID ([] : List (ℚ × PAResult)) = none := by rfl
  exact ⟨h1, h2, h3,
    parse_results_flagged_dropped wResultA [] [] h1 h2 (Or.inl h3)⟩

/-- C10: a result that passes the location-type check but has no `AGE`
key makes `_valid_result` raise the `KeyError`, which aborts the whole
reconciliation — `parse_json` fails with the key-lookup error instead of
silently excluding the record. -/
theorem parse_json_missing_age_fails (r : PAResult) (rest : List PAResult)
    (cb : List (ℚ × PAResult))
    (hloc : r.DEVICE_LOCATIONTYPE.getD "outside" = "outside")
    (hage : r.AGE = none) :
    _valid_result r = .error (PyError.keyError "AGE") ∧
    _parse_results (r :: rest) cb = .error (PyError.keyError "AGE") ∧
    (r.ParentID = none →
      parse_json (r :: rest) = .error (PyError.keyError "AGE")) := by
  have hv : _valid_result r = .error (.keyError "AGE") := by
    unfold _valid_result
    rw [if_neg (by rw [hloc]; exact fun h => h rfl), hage]
  refine ⟨hv, ?_, ?_⟩
  · simp [_parse_results, hv]
  · intro hpid
    have hsplit : splitChannels (r :: rest) =
        (r :: (splitChannels rest).1, (splitChannels rest).2) := by
      simp [splitChannels, hpid]
    simp [parse_json, hsplit, _parse_results, hv]

/-- Witness for C10: `wResultNoAge` has an outside location but no `AGE`
key, so `parse_json` on a payload holding just it fails with the
`KeyError`. -/
theorem parse_json_missing_age_fails_witness :
    wResultNoAge.DEVICE_LOCATIONTYPE.getD "outside" = "outside" ∧
    wResultNoAge.AGE = none ∧
    (_valid_result wResultNoAge = .error (PyError.keyError "AGE") ∧
    _parse_results [wResultNoAge] [] = .error (PyError.keyError "AGE") ∧
    (wResultNoAge.ParentID = none →
      parse_json [wResultNoAge] = .error (PyError.keyError "AGE"))) := by
  have h1 : wResultNoAge.DEVICE_LOCATIONTYPE.getD "outside" = "outside" := by rfl
  have h2 : wResultNoAge.AGE = none := by rfl
  exact ⟨h1, h2, parse_json_missing_age_fails wResultNoAge [] [] h1 h2⟩

end PurpleAir
